import Mathlib

/-!
# Verification of the recipes_website scraping pipeline

Shallow embedding of the scraping code:
  * `src/recipes_website/core/_data_prep.py` — `match_urls`, `get_max_page_number`
  * `src/recipes_website/scrapers/tesco.py`  — `Scraper.get_hrefs`,
    `TescoScraper.scrape_tesco`, `TescoScraper.scrape_item_info`

External collaborators (the browser fetch, the `re` module's compiled regex
match, BeautifulSoup's document queries) are modelled as parameters or as the
already-queried node structure they return; the Python control flow and string
processing of the repository's own functions is translated directly.
-/

namespace RecipesWebsite

/-! ## Python string primitives used by the source

`str.split(sep)[0]`, `str.split(sep)[-1]`, `str.strip()`, and the `in`
substring test, modelled over `List Char`. -/

/-- Characters of `s` before the first occurrence of `sep` (all of `s` when
`sep` does not occur): Python's `s.split(sep)[0]` for a non-empty `sep`. -/
def beforeFirst (sep : List Char) : List Char → List Char
  | [] => []
  | c :: cs => if List.isPrefixOf sep (c :: cs) then [] else c :: beforeFirst sep cs

/-- The remainder of the list after the first occurrence of `sep`, when there
is one. -/
def afterFirstOcc (sep : List Char) : List Char → Option (List Char)
  | [] => none
  | c :: cs =>
    if List.isPrefixOf sep (c :: cs) then some (List.drop sep.length (c :: cs))
    else afterFirstOcc sep cs

/-- Fuelled left-to-right scan dropping everything up to and including each
occurrence of `sep`. -/
def afterLastGo (sep : List Char) : Nat → List Char → List Char
  | 0, s => s
  | fuel + 1, s =>
    match afterFirstOcc sep s with
    | none => s
    | some rest => afterLastGo sep fuel rest

/-- Characters of `s` after the last (left-to-right, non-overlapping)
occurrence of `sep`: Python's `s.split(sep)[-1]` for a non-empty `sep`. -/
def afterLast (sep s : List Char) : List Char :=
  afterLastGo sep (s.length + 1) s

/-- Python `s.split(sep)[0]` on strings. -/
def pySplitFirst (sep s : String) : String :=
  String.mk (beforeFirst sep.toList s.toList)

/-- Python `s.split(sep)[-1]` on strings. -/
def pySplitLast (sep s : String) : String :=
  String.mk (afterLast sep.toList s.toList)

/-- Python `s.strip()`: whitespace removed from both ends. -/
def pyStrip (s : String) : String :=
  String.mk (((s.toList.dropWhile Char.isWhitespace).reverse.dropWhile
    Char.isWhitespace).reverse)

/-- `sub` occurs contiguously in the list. -/
def listContains (sub : List Char) : List Char → Bool
  | [] => sub.isEmpty
  | c :: cs => List.isPrefixOf sub (c :: cs) || listContains sub cs

/-- Python `sub in s`: contiguous-substring test. -/
def pyContains (sub s : String) : Bool :=
  listContains sub.toList s.toList

/-! ## `core/_data_prep.py` -/

/-- A Python value that may appear in the `urls` argument of `match_urls`:
a string, `None`, or some other non-string object. -/
inductive PyVal where
  | str (s : String)
  | null
  | other
deriving DecidableEq, Repr

/-- The test of the comprehension in `match_urls`:
`isinstance(url, str) and re.match(pattern, url)`.  `reMatch` stands for the
`re` module's anchored match, an external collaborator. -/
def isMatchingStr (reMatch : String → String → Bool) (pattern : String) : PyVal → Bool
  | .str s => reMatch pattern s
  | .null => false
  | .other => false

/-- `match_urls(urls, pattern)`:
`[url for url in urls if isinstance(url, str) and re.match(pattern, url)]`. -/
def match_urls (reMatch : String → String → Bool) (urls : List PyVal)
    (pattern : String) : List PyVal :=
  urls.filter (isMatchingStr reMatch pattern)

/-- The value of a decimal digit string, as Python's `int` reads it. -/
def natOfDigits (ds : List Char) : Nat :=
  ds.foldl (fun a c => a * 10 + (c.toNat - 48)) 0

/-- `re.search(r"page=(\d+)", s)` followed by `int(match.group(1))`: the first
position where `page=` is followed by at least one digit wins, and the maximal
digit run after its `=` is the captured group. -/
def pageTokenList : List Char → Option Nat
  | [] => none
  | c :: cs =>
    if List.isPrefixOf ['p', 'a', 'g', 'e', '='] (c :: cs) then
      let ds := (List.drop 5 (c :: cs)).takeWhile Char.isDigit
      if ds.isEmpty then pageTokenList cs else some (natOfDigits ds)
    else pageTokenList cs

/-- `page=<digits>` token search on a string. -/
def pageTokenSearch (s : String) : Option Nat :=
  pageTokenList s.toList

/-- A pagination `<li>` element, reduced to the `href` attributes (present or
absent) of its `<a>` descendants in document order — all that
`get_max_page_number` inspects. -/
abbrev PaginationItem := List (Option String)

/-- `item.find('a', href=re.compile(r"page=(\d+)"))` followed by the re-search
of the found `href`: BeautifulSoup returns the first `<a>` whose `href`
attribute exists and matches the pattern. -/
def itemPageNumber (item : PaginationItem) : Option Nat :=
  match item.find? (fun a =>
      match a with
      | some h => (pageTokenSearch h).isSome
      | none => false) with
  | some (some h) => pageTokenSearch h
  | some none => none
  | none => none

/-- `get_max_page_number(pagination_items)`: collects one `page=<digits>`
token per item and returns `max(page_numbers) if page_numbers else 1`. -/
def get_max_page_number (pagination_items : List PaginationItem) : Nat :=
  let page_numbers := pagination_items.filterMap itemPageNumber
  if page_numbers.isEmpty then 1 else page_numbers.foldl Nat.max 0

/-! ## `scrapers/tesco.py`: `Scraper.get_hrefs` -/

/-- An element of the parsed page as `get_hrefs` sees it: its tag name, its
`class` attribute values, and its `href` attribute when present. -/
structure Elem where
  tag : String
  classes : List String
  href : Option String
deriving DecidableEq, Repr

/-- `get_hrefs(soup, tag, class_name)`: three guarded branches build the list
of `href` values; the `tag is None and class_name is not None` combination
matches no branch, so Python falls off the end and returns `None`. -/
def get_hrefs (soup : List Elem) (tag : Option String) (class_name : Option String) :
    Option (List String) :=
  match tag, class_name with
  | none, none =>
    some ((soup.filter (fun e => e.tag = "a")).filterMap (fun e => e.href))
  | some t, none =>
    some ((soup.filter (fun e => e.tag = t)).filterMap (fun e => e.href))
  | some t, some c =>
    some ((soup.filter (fun e => e.tag = t ∧ c ∈ e.classes)).filterMap (fun e => e.href))
  | none, some _ => none

/-! ## `scrapers/tesco.py`: `TescoScraper.scrape_tesco`

A product `<li>` is reduced to the text of the four nodes the code looks up
with `product.find(...)` — each present or absent.  A listing page is the
result of `soup.find_all("ul", {"class": "product-list grid"})`: a list of
containers, each a list of products. -/

/-- One `li.product-list--list-item` fragment: the texts of the name span,
the Clubcard-price paragraph, the regular-price paragraph and the
`ddsweb-value-bar__terms` paragraph, when those nodes exist. -/
structure Product where
  name : Option String
  current_price : Option String
  regular_price : Option String
  discount_text : Option String
deriving DecidableEq, Repr

/-- The containers matching `ul.product-list grid` on one fetched page, each
holding its `li.product-list--list-item` fragments. -/
abbrev Page := List (List Product)

/-- The five accumulator lists of `scrape_tesco`. -/
structure ScrapeLists where
  names : List String
  current_prices : List String
  regular_prices : List String
  discounts : List String
  validity_dates : List String
deriving DecidableEq, Repr

/-- `name.get_text() if name else "-"`. -/
def extractName (p : Product) : String :=
  match p.name with
  | some t => t
  | none => "-"

/-- `current_price.get_text().split("€")[0].strip() if current_price else "-"`. -/
def extractCurrentPrice (p : Product) : String :=
  match p.current_price with
  | some t => pyStrip (pySplitFirst "€" t)
  | none => "-"

/-- `regular_price.get_text().split("€")[0].strip() if regular_price else "-"`. -/
def extractRegularPrice (p : Product) : String :=
  match p.regular_price with
  | some t => pyStrip (pySplitFirst "€" t)
  | none => "-"

/-- The `validity_date` branch of the discount block:
`discount_text.get_text().split("do")[-1].strip() if "do" in ... else "-"`,
and `"-"` when the terms node is absent. -/
def extractValidity (p : Product) : String :=
  match p.discount_text with
  | some t => if pyContains "do" t then pyStrip (pySplitLast "do" t) else "-"
  | none => "-"

/-- The `discounts` branch of the discount block:
`discount_text.get_text().split("Clubcard")[-1].split("€")[0].strip()` when
`"Clubcard"` occurs, else `"-"`; `"-"` when the terms node is absent. -/
def extractDiscount (p : Product) : String :=
  match p.discount_text with
  | some t =>
    if pyContains "Clubcard" t then pyStrip (pySplitFirst "€" (pySplitLast "Clubcard" t))
    else "-"
  | none => "-"

/-- The body of `for product in product_list[0].find_all(...)`: one append to
each of the five lists. -/
def processProduct (st : ScrapeLists) (p : Product) : ScrapeLists where
  names := st.names ++ [extractName p]
  current_prices := st.current_prices ++ [extractCurrentPrice p]
  regular_prices := st.regular_prices ++ [extractRegularPrice p]
  discounts := st.discounts ++ [extractDiscount p]
  validity_dates := st.validity_dates ++ [extractValidity p]

/-- The fields of `self.active_site` that `scrape_tesco` reads. -/
structure ActiveSite where
  main_http : String
  links : List String
  suffix : String
deriving DecidableEq, Repr

/-- `url = f"{main_http}{category}/{suffix}{page}"`. -/
def pageUrl (site : ActiveSite) (category : String) (page : Nat) : String :=
  site.main_http ++ category ++ "/" ++ site.suffix ++ toString page

/-- The fetch collaborator (`fetch_all_soup` plus the `find_all` for the
product-list containers): given the url and the number of fetch calls already
made in the run, it either raises (`error`, a `WebDriverException`) or
returns the parsed page. -/
abbrev Fetcher := String → Nat → Except Unit Page

/-- `while attempt < max_retries and not success:` — the loop keeps `attempt`
at its initial value because the source never increments it.  The result pairs
the outcome (the updated lists, or the uncaught fetch exception) with the
total number of fetch calls made.  `fuel` bounds the modelled iterations; the
body always leaves the loop (break, raise or `success = True`), so any
positive fuel gives the loop's true result. -/
def pageLoop (fetch : Fetcher) (url : String) (max_retries : Nat) :
    Nat → Nat → Bool → ScrapeLists → Nat → Except Unit ScrapeLists × Nat
  | 0, _, _, st, calls => (.ok st, calls)
  | fuel + 1, attempt, success, st, calls =>
    if attempt < max_retries ∧ success = false then
      match fetch url calls with
      | .error e => (.error e, calls + 1)
      | .ok page =>
        match page with
        | [] => (.ok st, calls + 1)
        | container :: _ =>
          pageLoop fetch url max_retries fuel attempt true
            (container.foldl processProduct st) (calls + 1)
    else (.ok st, calls)

/-- The per-page retry loop entered with `attempt, success = 0, False`. -/
def runPage (fetch : Fetcher) (url : String) (max_retries : Nat)
    (st : ScrapeLists) (calls : Nat) : Except Unit ScrapeLists × Nat :=
  pageLoop fetch url max_retries (max_retries + 1) 0 false st calls

/-- `for page in range(1, num_pages + 1):` over the remaining page numbers;
an exception escaping the retry loop aborts the whole run. -/
def scrapePages (fetch : Fetcher) (site : ActiveSite) (category : String)
    (max_retries : Nat) :
    List Nat → ScrapeLists → Nat → Except Unit ScrapeLists × Nat
  | [], st, calls => (.ok st, calls)
  | pg :: rest, st, calls =>
    match runPage fetch (pageUrl site category pg) max_retries st calls with
    | (.error e, calls') => (.error e, calls')
    | (.ok st', calls') => scrapePages fetch site category max_retries rest st' calls'

/-- `for category in links:` over the remaining categories. -/
def scrapeCategories (fetch : Fetcher) (site : ActiveSite)
    (num_pages max_retries : Nat) :
    List String → ScrapeLists → Nat → Except Unit ScrapeLists × Nat
  | [], st, calls => (.ok st, calls)
  | cat :: rest, st, calls =>
    match scrapePages fetch site cat max_retries
        ((List.range num_pages).map (· + 1)) st calls with
    | (.error e, calls') => (.error e, calls')
    | (.ok st', calls') => scrapeCategories fetch site num_pages max_retries rest st' calls'

/-- One row of the final `pd.DataFrame`: the fixed six-column schema
Polozka / Nova Cena / Stara Cena / Zlava / Platnost / Obchod. -/
structure ScrapeRow where
  polozka : String
  novaCena : String
  staraCena : String
  zlava : String
  platnost : String
  obchod : String
deriving DecidableEq, Repr

/-- Row `i` of the DataFrame built from the five equal-length columns plus the
`Obchod` column `[main_http] * len(names)`. -/
def zipRows : List String → List String → List String → List String →
    List String → List String → List ScrapeRow
  | n :: ns, c :: cs, r :: rs, d :: ds, v :: vs, o :: os =>
    ⟨n, c, r, d, v, o⟩ :: zipRows ns cs rs ds vs os
  | _, _, _, _, _, _ => []

/-- The `pd.DataFrame({...})` at the end of `scrape_tesco`. -/
def buildRows (main_http : String) (st : ScrapeLists) : List ScrapeRow :=
  zipRows st.names st.current_prices st.regular_prices st.discounts
    st.validity_dates (List.replicate st.names.length main_http)

/-- `scrape_tesco(num_pages, max_retries, ...)` for an active site, with the
fetch collaborator explicit: the resulting table (or the fetch exception the
source lets escape) together with the total number of fetch calls made. -/
def scrape_tesco (fetch : Fetcher) (site : ActiveSite)
    (num_pages max_retries : Nat) : Except Unit (List ScrapeRow) × Nat :=
  match scrapeCategories fetch site num_pages max_retries site.links
      ⟨[], [], [], [], []⟩ 0 with
  | (.error e, calls) => (.error e, calls)
  | (.ok st, calls) => (.ok (buildRows site.main_http st), calls)

/-! ## `scrapers/tesco.py`: `TescoScraper.scrape_item_info`

The product-detail page, reduced to the query results the method reads.
A nested `Option` records a container that is present while the inner node the
code chains into (`.find("ul")`, `.find("p")`, `find_next("span", "dates")`,
`anchor['href']`) may still be absent.  Calling `.get_text()` on an absent
node raises `AttributeError`, which the method's `except WebDriverException`
clause does not catch, so it escapes: modelled as `Except.error ()`. -/

/-- The node lookups of `scrape_item_info` on one parsed page. -/
structure ItemPage where
  title : Option String
  priceValue : Option String
  pricePerUnit : Option String
  offerText : Option String
  datesSpan : Option String
  descriptionBlock : Option (Option String)
  ingredientsBlock : Option (Option String)
  allergensBlock : Option (Option String)
  manufacturer : Option String
  distributor : Option String
  breadcrumb : Option (Option (Option String))
deriving DecidableEq, Repr

/-- `node.get_text(strip=True)` on a node that may be absent: the text when
the node exists, `AttributeError` (uncaught) when it is `None`. -/
def getTextStrip : Option String → Except Unit String
  | some t => .ok (pyStrip t)
  | none => .error ()

/-- One row of the DataFrame built by `scrape_item_info`. -/
structure ItemRow where
  productName : String
  currentPrice : String
  regularPrice : String
  discount : String
  validityDate : String
  description : String
  ingredients : String
  allergens : String
  manufacturerInfo : String
  distributorInfo : String
  categoryLink : String
deriving DecidableEq, Repr

/-- The field-extraction body of `scrape_item_info` (lines after the fetch):
guarded lookups append text or `"-"`; the four chained lookups
(`find_next("span", "dates")`, description `.find("ul")`, ingredients
`.find("p")`, allergens `.find("ul")`) and the breadcrumb `anchor['href']`
are unguarded and raise when the inner node or attribute is absent. -/
def scrape_item_info_extract (pg : ItemPage) : Except Unit ItemRow := do
  let name :=
    match pg.title with
    | some t => pyStrip t
    | none => "-"
  let currentPrice :=
    match pg.priceValue with
    | some t => pyStrip t
    | none => "-"
  let regularPrice :=
    match pg.pricePerUnit with
    | some t => pyStrip t
    | none => "-"
  let (discount, validityDate) ←
    match pg.offerText with
    | some t =>
      let discount_text := pyStrip t
      let d :=
        if pyContains "bežná cena" discount_text then
          pyStrip (pySplitFirst "bežná cena" discount_text)
        else "-"
      do
        let v ← getTextStrip pg.datesSpan
        pure (d, v)
    | none => pure ("-", "-")
  let description ←
    match pg.descriptionBlock with
    | some inner => getTextStrip inner
    | none => pure "-"
  let ingredients ←
    match pg.ingredientsBlock with
    | some inner => getTextStrip inner
    | none => pure "-"
  let allergens ←
    match pg.allergensBlock with
    | some inner => getTextStrip inner
    | none => pure "-"
  let manufacturerInfo :=
    match pg.manufacturer with
    | some t => pyStrip t
    | none => "-"
  let distributorInfo :=
    match pg.distributor with
    | some t => pyStrip t
    | none => "-"
  let categoryLink ←
    match pg.breadcrumb with
    | some (some (some h)) => pure h
    | some (some none) => .error ()
    | some none => pure "-"
    | none => pure "-"
  pure ⟨name, currentPrice, regularPrice, discount, validityDate, description,
    ingredients, allergens, manufacturerInfo, distributorInfo, categoryLink⟩

/-! ## Concrete fixtures used by counterexamples and witnesses -/

/-- A fetch collaborator that always succeeds, returning the page the site
holds at that url — fetching is deterministic and never raises. -/
def fetchOf (pages : String → Page) : Fetcher :=
  fun url _ => .ok (pages url)

/-- A site whose every listing page has zero `product-list grid` containers. -/
def emptyPages : String → Page := fun _ => []

/-- A one-category active site. -/
def exSite : ActiveSite :=
  ⟨"http://tesco.example/", ["meat"], "all?page="⟩

/-- A product fragment with none of the four rule-matchable nodes. -/
def emptyProduct : Product := ⟨none, none, none, none⟩

/-- A non-empty listing page: one container with one product. -/
def onePage : Page := [[⟨some "N", some "3.49€", none, none⟩]]

/-- A fetch collaborator that raises a `WebDriverException` on its first two
calls and succeeds from the third call on — the transient-failure double of
the retry property. -/
def flakyFetch : Fetcher :=
  fun _ n => if n < 2 then .error () else .ok onePage

/-! ## Helper lemmas -/

theorem le_foldl_max (l : List Nat) : ∀ a : Nat, a ≤ l.foldl Nat.max a := by
  induction l with
  | nil => intro a; exact Nat.le_refl a
  | cons x xs ih =>
    intro a
    exact Nat.le_trans (Nat.le_max_left a x) (ih (Nat.max a x))

theorem mem_le_foldl_max (l : List Nat) :
    ∀ a n : Nat, n ∈ l → n ≤ l.foldl Nat.max a := by
  induction l with
  | nil => intro a n h; cases h
  | cons x xs ih =>
    intro a n h
    rcases List.mem_cons.mp h with h | h
    · subst h
      exact Nat.le_trans (Nat.le_max_right a n) (le_foldl_max xs (Nat.max a n))
    · exact ih (Nat.max a x) n h

theorem foldl_max_eq_or_mem (l : List Nat) :
    ∀ a : Nat, l.foldl Nat.max a = a ∨ l.foldl Nat.max a ∈ l := by
  induction l with
  | nil => intro a; exact Or.inl rfl
  | cons x xs ih =>
    intro a
    rcases ih (Nat.max a x) with h | h
    · rw [List.foldl_cons, h]
      rcases Nat.le_total a x with hax | hxa
      · right
        have hx : Nat.max a x = x := Nat.max_eq_right hax
        rw [hx]
        exact List.mem_cons_self x xs
      · left
        exact Nat.max_eq_left hxa
    · right
      rw [List.foldl_cons]
      exact List.mem_cons_of_mem x h

/-- The retry loop with `success` already `True` exits at once: the guard
`attempt < max_retries and not success` fails. -/
theorem pageLoop_success (fetch : Fetcher) (url : String) (mr : Nat) :
    ∀ fuel attempt st calls,
      pageLoop fetch url mr fuel attempt true st calls = (.ok st, calls) := by
  intro fuel attempt st calls
  cases fuel with
  | zero => rfl
  | succ n => simp [pageLoop]

/-- With a fetch collaborator that never raises, the retry loop makes exactly
one fetch call and returns normally, whatever the page holds, whenever
`max_retries` is at least 1. -/
theorem runPage_fetchOf (pages : String → Page) (url : String) (mr : Nat)
    (st : ScrapeLists) (calls : Nat) (h : 1 ≤ mr) :
    ∃ st', runPage (fetchOf pages) url mr st calls = (.ok st', calls + 1) := by
  obtain ⟨m, rfl⟩ : ∃ m, mr = m + 1 := ⟨mr - 1, by omega⟩
  unfold runPage
  rw [pageLoop]
  simp only [Nat.succ_pos, true_and, if_pos rfl, fetchOf]
  cases hp : pages url with
  | nil => exact ⟨st, rfl⟩
  | cons container rest =>
    exact ⟨container.foldl processProduct st, pageLoop_success _ _ _ _ _ _ _⟩

/-- Page iteration makes exactly one fetch call per page number when the
fetch collaborator never raises. -/
theorem scrapePages_fetchOf (pages : String → Page) (site : ActiveSite)
    (cat : String) (mr : Nat) (h : 1 ≤ mr) :
    ∀ (pgs : List Nat) (st : ScrapeLists) (calls : Nat),
      ∃ st', scrapePages (fetchOf pages) site cat mr pgs st calls =
        (.ok st', calls + pgs.length) := by
  intro pgs
  induction pgs with
  | nil => intro st calls; exact ⟨st, rfl⟩
  | cons pg rest ih =>
    intro st calls
    obtain ⟨st1, h1⟩ := runPage_fetchOf pages (pageUrl site cat pg) mr st calls h
    obtain ⟨st2, h2⟩ := ih st1 (calls + 1)
    refine ⟨st2, ?_⟩
    rw [scrapePages, h1]
    dsimp only
    rw [h2]
    simp only [List.length_cons]
    congr 1
    omega

/-- Category iteration makes `num_pages` fetch calls per category when the
fetch collaborator never raises. -/
theorem scrapeCategories_fetchOf (pages : String → Page) (site : ActiveSite)
    (np mr : Nat) (h : 1 ≤ mr) :
    ∀ (cats : List String) (st : ScrapeLists) (calls : Nat),
      ∃ st', scrapeCategories (fetchOf pages) site np mr cats st calls =
        (.ok st', calls + cats.length * np) := by
  intro cats
  induction cats with
  | nil => intro st calls; exact ⟨st, by simp [scrapeCategories]⟩
  | cons cat rest ih =>
    intro st calls
    obtain ⟨st1, h1⟩ := scrapePages_fetchOf pages site cat mr h
      ((List.range np).map (· + 1)) st calls
    obtain ⟨st2, h2⟩ := ih st1 (calls + ((List.range np).map (· + 1)).length)
    refine ⟨st2, ?_⟩
    rw [scrapeCategories, h1]
    dsimp only
    rw [h2]
    simp only [List.length_map, List.length_range, List.length_cons]
    congr 1
    ring

/-! ## Claim theorems -/

/-- Claim C1, counterexample: with a one-category site whose page 1 already
has zero record containers and `num_pages = 2`, `scrape_tesco` makes 2 fetch
calls, not the 1 the claim requires — the `break` leaves only the retry loop,
so page 2 of the category is still fetched. -/
theorem scrape_tesco_fetches_later_page_after_empty :
    (scrape_tesco (fetchOf emptyPages) exSite 2 3).2 = 2
    ∧ (scrape_tesco (fetchOf emptyPages) exSite 2 3).2 ≠ 1 := by
  have h2 : (scrape_tesco (fetchOf emptyPages) exSite 2 3).2 = 2 := rfl
  exact ⟨h2, by rw [h2]; omega⟩

/-- Claim C1, amended: a page with zero record containers only ends the
retry loop for that page; page iteration continues, and with a fetch
collaborator that never raises every page `1..num_pages` of every category is
fetched exactly once (`max_retries ≥ 1`), for a total of
`links.length * num_pages` fetch calls, whatever the pages contain. -/
theorem scrape_tesco_fetches_every_page_once (pages : String → Page)
    (site : ActiveSite) (num_pages mr : Nat) (h : 1 ≤ mr) :
    (scrape_tesco (fetchOf pages) site num_pages mr).2 =
      site.links.length * num_pages := by
  obtain ⟨st, hst⟩ := scrapeCategories_fetchOf pages site num_pages mr h
    site.links ⟨[], [], [], [], []⟩ 0
  rw [scrape_tesco, hst]
  simp

/-- Witness for the amended C1 theorem at a concrete site: one category, two
pages, all pages empty, `max_retries = 3` — two fetch calls are made. -/
theorem scrape_tesco_fetches_every_page_once_witness :
    (scrape_tesco (fetchOf emptyPages) exSite 2 3).2 = exSite.links.length * 2 :=
  scrape_tesco_fetches_every_page_once emptyPages exSite 2 3 (by decide)

/-- Claim C2 (code bug evidence): with `max_retries = 3` and a fetch
collaborator that raises on its first two calls and succeeds on the third,
`scrape_tesco` makes exactly 1 fetch attempt and the exception escapes to the
caller — the source never increments `attempt`, never sleeps and never
catches the fetch exception, so no retry happens. -/
theorem scrape_tesco_raises_on_first_transient_failure :
    scrape_tesco flakyFetch exSite 1 3 = (.error (), 1) := rfl

/-- Claim C3 (confirmed): a fetched page whose markup has zero record
containers gets exactly one fetch attempt — the retry loop breaks at once
with one more fetch call and the scraped lists unchanged — for any
`max_retries` greater than 1. -/
theorem runPage_empty_page_single_fetch (fetch : Fetcher) (site : ActiveSite)
    (cat : String) (pg : Nat) (mr : Nat) (st : ScrapeLists) (calls : Nat)
    (hmr : 1 < mr) (hempty : fetch (pageUrl site cat pg) calls = .ok []) :
    runPage fetch (pageUrl site cat pg) mr st calls = (.ok st, calls + 1) := by
  obtain ⟨m, rfl⟩ : ∃ m, mr = m + 2 := ⟨mr - 2, by omega⟩
  unfold runPage
  rw [pageLoop]
  simp [hempty]

/-- Witness for C3: a concrete empty page under `max_retries = 2` is fetched
exactly once. -/
theorem runPage_empty_page_single_fetch_witness :
    runPage (fetchOf emptyPages) (pageUrl exSite "meat" 1) 2
      ⟨[], [], [], [], []⟩ 0 = (.ok ⟨[], [], [], [], []⟩, 0 + 1) :=
  runPage_empty_page_single_fetch (fetchOf emptyPages) exSite "meat" 1 2
    ⟨[], [], [], [], []⟩ 0 (by decide) rfl

/-- Claim C4 (confirmed): `match_urls` is total on lists holding non-string
or null entries (the embedding returns a value for every input), and its
output is an ordered subsequence of the input containing every string entry
matching the pattern and nothing else: no non-string entry and no
non-matching string survives. -/
theorem match_urls_string_subsequence :
    ∀ (reMatch : String → String → Bool) (urls : List PyVal) (pattern : String),
      (match_urls reMatch urls pattern).Sublist urls
      ∧ (∀ v ∈ match_urls reMatch urls pattern,
          ∃ s, v = PyVal.str s ∧ reMatch pattern s = true)
      ∧ (∀ s, PyVal.str s ∈ urls → reMatch pattern s = true →
          PyVal.str s ∈ match_urls reMatch urls pattern) := by
  intro reMatch urls pattern
  refine ⟨List.filter_sublist _, ?_, ?_⟩
  · intro v hv
    have hm := (List.mem_filter.mp hv).2
    cases v with
    | str s => exact ⟨s, rfl, hm⟩
    | null => simp [isMatchingStr] at hm
    | other => simp [isMatchingStr] at hm
  · intro s hs hm
    exact List.mem_filter.mpr ⟨hs, hm⟩

/-- Claim C5 (confirmed): `get_max_page_number` returns 1 when no fragment
yields a `page=<digits>` token, returns an upper bound of all yielded tokens
that is itself one of them otherwise, and returns 5 on fragments embedding
the tokens 2, 5 and 3. -/
theorem get_max_page_number_is_max :
    (∀ items : List PaginationItem,
        items.filterMap itemPageNumber = [] → get_max_page_number items = 1)
    ∧ (∀ (items : List PaginationItem) (n : Nat),
        n ∈ items.filterMap itemPageNumber → n ≤ get_max_page_number items)
    ∧ (∀ items : List PaginationItem,
        items.filterMap itemPageNumber ≠ [] →
          get_max_page_number items ∈ items.filterMap itemPageNumber)
    ∧ get_max_page_number
        [[some "a?page=2"], [some "b?page=5"], [some "c?page=3"]] = 5 := by
  refine ⟨?_, ?_, ?_, by decide⟩
  · intro items h
    simp [get_max_page_number, h]
  · intro items n hn
    cases hl : items.filterMap itemPageNumber with
    | nil => rw [hl] at hn; cases hn
    | cons x xs =>
      rw [hl] at hn
      simp only [get_max_page_number, hl, List.isEmpty_cons, Bool.false_eq_true,
        if_false]
      exact mem_le_foldl_max (x :: xs) 0 n hn
  · intro items hne
    cases hl : items.filterMap itemPageNumber with
    | nil => exact absurd hl hne
    | cons x xs =>
      simp only [get_max_page_number, hl, List.isEmpty_cons, Bool.false_eq_true,
        if_false]
      rcases foldl_max_eq_or_mem (x :: xs) 0 with h0 | hmem
      · have hx : x ≤ (x :: xs).foldl Nat.max 0 :=
          mem_le_foldl_max (x :: xs) 0 x (List.mem_cons_self x xs)
        rw [h0] at hx ⊢
        have hx0 : x = 0 := Nat.le_zero.mp hx
        exact hx0 ▸ List.mem_cons_self x xs
      · exact hmem

/-- Claim C6 (confirmed): processing one record fragment appends exactly one
value to each of the five extracted columns, with the sentinel for every
absent node, and the row built from it carries the fixed six-field schema
with the sentinel everywhere except the constant source column. -/
theorem processProduct_all_sentinel (mh : String) (st : ScrapeLists)
    (p : Product) (h1 : p.name = none) (h2 : p.current_price = none)
    (h3 : p.regular_price = none) (h4 : p.discount_text = none) :
    processProduct st p =
      ⟨st.names ++ ["-"], st.current_prices ++ ["-"], st.regular_prices ++ ["-"],
        st.discounts ++ ["-"], st.validity_dates ++ ["-"]⟩
    ∧ buildRows mh (processProduct ⟨[], [], [], [], []⟩ p) =
        [⟨"-", "-", "-", "-", "-", mh⟩] := by
  obtain ⟨pn, pc, pr, pd⟩ := p
  subst h1
  subst h2
  subst h3
  subst h4
  exact ⟨rfl, rfl⟩

/-- Witness for C6 at the concrete fragment with no rule-matchable nodes. -/
theorem processProduct_all_sentinel_witness :
    processProduct ⟨[], [], [], [], []⟩ emptyProduct =
      ⟨[] ++ ["-"], [] ++ ["-"], [] ++ ["-"], [] ++ ["-"], [] ++ ["-"]⟩
    ∧ buildRows "http://tesco.example/" (processProduct ⟨[], [], [], [], []⟩ emptyProduct) =
        [⟨"-", "-", "-", "-", "-", "http://tesco.example/"⟩] :=
  processProduct_all_sentinel "http://tesco.example/" ⟨[], [], [], [], []⟩
    emptyProduct rfl rfl rfl rfl

/-- Claim C7 (code bug evidence): a nested node absent inside a present
container makes `scrape_item_info` raise (the chained `.get_text()` on `None`
is an `AttributeError` the `except WebDriverException` clause does not
catch): the dates span after a present offer text, the `<ul>` of a present
description block, the `<p>` of a present ingredients block and the `<ul>` of
a present allergens block each raise, while a page with every top-level node
absent extracts the sentinel for every field without raising. -/
theorem scrape_item_info_raises_on_nested_absence :
    scrape_item_info_extract
        ⟨none, none, none, some "akcia", none, none, none, none, none, none, none⟩ =
      .error ()
    ∧ scrape_item_info_extract
        ⟨none, none, none, none, none, some none, none, none, none, none, none⟩ =
      .error ()
    ∧ scrape_item_info_extract
        ⟨none, none, none, none, none, none, some none, none, none, none, none⟩ =
      .error ()
    ∧ scrape_item_info_extract
        ⟨none, none, none, none, none, none, none, some none, none, none, none⟩ =
      .error ()
    ∧ scrape_item_info_extract
        ⟨none, none, none, none, none, none, none, none, none, none, none⟩ =
      .ok ⟨"-", "-", "-", "-", "-", "-", "-", "-", "-", "-", "-"⟩ :=
  ⟨rfl, rfl, rfl, rfl, rfl⟩

/-- Claim C8 (confirmed): a record fragment whose current-price node holds
the text `3.49€` extracts the current price `3.49` — the text before the
currency symbol, trimmed. -/
theorem extractCurrentPrice_strips_currency (p : Product)
    (h : p.current_price = some "3.49€") : extractCurrentPrice p = "3.49" := by
  simp only [extractCurrentPrice, h]
  decide

/-- Witness for C8 at a concrete fragment. -/
theorem extractCurrentPrice_strips_currency_witness :
    extractCurrentPrice ⟨none, some "3.49€", none, none⟩ = "3.49" :=
  extractCurrentPrice_strips_currency ⟨none, some "3.49€", none, none⟩ rfl

/-- Claim C9 (confirmed): `match_urls` is idempotent — filtering its own
output with the same pattern returns that output unchanged. -/
theorem match_urls_idempotent :
    ∀ (reMatch : String → String → Bool) (urls : List PyVal) (pattern : String),
      match_urls reMatch (match_urls reMatch urls pattern) pattern =
        match_urls reMatch urls pattern := by
  intro reMatch urls pattern
  unfold match_urls
  induction urls with
  | nil => rfl
  | cons u us ih =>
    cases h : isMatchingStr reMatch pattern u with
    | false => simp [List.filter_cons, h, ih]
    | true => simp [List.filter_cons, h, ih]

/-- Claim C10 (confirmed): calling `get_hrefs` with `tag` absent but
`class_name` present matches none of the three branches, so the function
returns no list at all: the absent value `None`. -/
theorem get_hrefs_class_only_returns_none :
    ∀ (soup : List Elem) (c : String), get_hrefs soup none (some c) = none := by
  intro soup c
  rfl

end RecipesWebsite
